import Mathlib

/-!
A shallow embedding of the recurring-message scheduler in `src/bot.py`.

The embedding models the scheduling core of the bot:

* the SQLite job table (`jobs (chat_id INTEGER PRIMARY KEY, job_data BLOB)`)
  as an association list from chat ids to serialized blobs;
* the pickled `job_data` dictionary as an association list from string keys
  to Python values (`None`, `str`, `int` are the only value shapes the bot
  ever stores), with a concrete self-describing token-stream serialization
  standing in for `pickle.dumps` / `pickle.loads` (a blob that does not
  parse models a corrupt / undeserializable pickle);
* the `python-telegram-bot` job queue as a list of named repeating jobs;
* the handlers `set_timer`, `stop_timer`, `send_recurring_message`,
  `remove_job_if_exists` and the startup reconciliation loop in `main`
  as pure state-transition functions.  `set_timer` additionally emits a
  trace of store/registry events so that the order of the persist step
  relative to timer changes is visible in the model.

Definitions are followed by the theorems checking the specification's
claims against this embedding.
-/

/-- A Python value as stored in the bot's `job_data` dictionary.
The bot only ever stores `None`, strings and ints there. -/
inductive PyVal where
  | pyNone : PyVal
  | pyStr (s : String) : PyVal
  | pyInt (i : Int) : PyVal
deriving DecidableEq, Repr

/-- The `job_data` Python dictionary: string keys to Python values,
in insertion order. -/
abbrev JobDict := List (String × PyVal)

/-- `d.get(k)`: first value stored under key `k`, if any. -/
def dictGet (d : JobDict) (k : String) : Option PyVal :=
  (d.find? (fun e => e.1 = k)).map (fun e => e.2)

/-- `d.get(k, dflt)`: value under `k`, or the default when the key is absent. -/
def dictGetD (d : JobDict) (k : String) (dflt : PyVal) : PyVal :=
  (dictGet d k).getD dflt

/-- `d[k] = v` on a dict: replace the value in place if the key exists,
otherwise append a new entry. -/
def dictSet (d : JobDict) (k : String) (v : PyVal) : JobDict :=
  match d with
  | [] => [(k, v)]
  | (k', v') :: rest => if k' = k then (k, v) :: rest else (k', v') :: dictSet rest k v

/-- `d.update({...})`: apply each key/value assignment in order. -/
def dictUpdate (d : JobDict) (us : List (String × PyVal)) : JobDict :=
  us.foldl (fun acc kv => dictSet acc kv.1 kv.2) d

/-- One token of the serialized blob.  `pickle.dumps` of the `job_data`
dict is modelled as a flat, self-describing token stream: a length-prefixed
entry count, then for each entry a length-prefixed key string and a tagged
value. -/
inductive Token where
  | tNone : Token
  | tStr : Token
  | tInt (i : Int) : Token
  | tNat (n : Nat) : Token
  | tChr (c : Char) : Token
deriving DecidableEq, Repr

/-- A serialized blob, as stored in the `job_data` column. -/
abbrev Blob := List Token

/-- Serialize a string: its length followed by its characters. -/
def serializeStr (s : String) : Blob :=
  Token.tNat s.length :: s.data.map Token.tChr

/-- Serialize one Python value with a leading tag. -/
def serializeVal : PyVal → Blob
  | .pyNone => [.tNone]
  | .pyInt i => [.tInt i]
  | .pyStr s => .tStr :: serializeStr s

/-- Serialize the entries of a dict in order. -/
def serializeEntries : List (String × PyVal) → Blob
  | [] => []
  | (k, v) :: rest => serializeStr k ++ serializeVal v ++ serializeEntries rest

/-- `pickle.dumps(job_data)`: entry count followed by the serialized entries. -/
def serializeDict (d : JobDict) : Blob :=
  Token.tNat d.length :: serializeEntries d

/-- Consume exactly `n` character tokens from the stream. -/
def takeChars : Nat → Blob → Option (List Char × Blob)
  | 0, ts => some ([], ts)
  | n + 1, .tChr c :: ts => (takeChars n ts).map (fun p => (c :: p.1, p.2))
  | _ + 1, _ => none

/-- Parse a length-prefixed string from the stream. -/
def parseStr : Blob → Option (String × Blob)
  | .tNat n :: ts => (takeChars n ts).map (fun p => (String.mk p.1, p.2))
  | _ => none

/-- Parse one tagged Python value from the stream. -/
def parseVal : Blob → Option (PyVal × Blob)
  | .tNone :: ts => some (.pyNone, ts)
  | .tInt i :: ts => some (.pyInt i, ts)
  | .tStr :: ts => (parseStr ts).map (fun p => (.pyStr p.1, p.2))
  | _ => none

/-- Parse exactly `n` key/value entries from the stream. -/
def parseEntries : Nat → Blob → Option (List (String × PyVal) × Blob)
  | 0, ts => some ([], ts)
  | n + 1, ts => do
    let (k, ts1) ← parseStr ts
    let (v, ts2) ← parseVal ts1
    let (rest, ts3) ← parseEntries n ts2
    some ((k, v) :: rest, ts3)

/-- `pickle.loads(blob)`: reconstruct the dict, or `none` for a corrupt /
undeserializable blob (a `pickle.loads` that raises). -/
def parseBlob (ts : Blob) : Option JobDict :=
  match ts with
  | .tNat n :: rest =>
    match parseEntries n rest with
    | some (d, []) => some d
    | _ => none
  | _ => none

/-! ## The Job Store (the SQLite `jobs` table) -/

/-- The `jobs` table: one row per `chat_id` (the `INTEGER PRIMARY KEY`),
holding the pickled `job_data` blob. -/
abbrev Store := List (Int × Blob)

/-- `save_job_to_db`'s `INSERT OR REPLACE`: drop any row for this chat id
and insert the new row. -/
def dbPut (chatId : Int) (b : Blob) (s : Store) : Store :=
  s.filter (fun e => e.1 ≠ chatId) ++ [(chatId, b)]

/-- `SELECT job_data FROM jobs WHERE chat_id = ?` followed by `fetchone`. -/
def dbGet (chatId : Int) (s : Store) : Option Blob :=
  (s.find? (fun e => e.1 = chatId)).map (fun e => e.2)

/-- `DELETE FROM jobs WHERE chat_id = ?` (a no-op when the row is absent). -/
def dbDelete (chatId : Int) (s : Store) : Store :=
  s.filter (fun e => e.1 ≠ chatId)

/-- `save_job_to_db(chat_id, job_data)`: pickle the dict and upsert the row. -/
def saveJobToDb (chatId : Int) (jd : JobDict) (s : Store) : Store :=
  dbPut chatId (serializeDict jd) s

/-- `load_job_from_db(chat_id)`: fetch the row and unpickle it.
The outer `Option` is the absence of an exception (`none` models
`pickle.loads` raising on a corrupt blob); the inner `Option` is the
function's own `None` result when no row exists. -/
def loadJobFromDb (chatId : Int) (s : Store) : Option (Option JobDict) :=
  match dbGet chatId s with
  | none => some none
  | some b => (parseBlob b).map some

/-- `load_all_jobs_from_db()`: `SELECT chat_id, job_data FROM jobs`, then
unpickle every row in a list comprehension.  The comprehension evaluates
left to right and a `pickle.loads` failure on any row raises, aborting the
whole call (`none`). -/
def loadAllJobsFromDb : Store → Option (List (Int × JobDict))
  | [] => some []
  | e :: rest =>
    match parseBlob e.2 with
    | none => none
    | some d => (loadAllJobsFromDb rest).map (fun l => (e.1, d) :: l)

/-- `delete_job_from_db(chat_id)`. -/
def deleteJobFromDb (chatId : Int) (s : Store) : Store :=
  dbDelete chatId s

/-! ## The Job Registry (the `python-telegram-bot` job queue) -/

/-- One repeating job in the job queue, as created by
`job_queue.run_repeating(send_recurring_message, interval=..., first=...,
chat_id=..., name=..., data=...)`.  Intervals and delays are in seconds. -/
structure Job where
  interval : Int
  first : Int
  chatId : Int
  name : String
  data : JobDict
deriving DecidableEq, Repr

/-- The in-memory job queue. -/
abbrev JobQueue := List Job

/-- `context.job_queue.get_jobs_by_name(name)`. -/
def getJobsByName (name : String) (jq : JobQueue) : JobQueue :=
  jq.filter (fun j => j.name = name)

/-- `remove_job_if_exists(name, context)`: schedule every job with this
name for removal; return whether any was found. -/
def removeJobIfExists (name : String) (jq : JobQueue) : Bool × JobQueue :=
  if (getJobsByName name jq).isEmpty then (false, jq)
  else (true, jq.filter (fun j => ¬ j.name = name))

/-- `job_queue.run_repeating(...)`: append a new repeating job. -/
def runRepeating (interval first : Int) (chatId : Int) (name : String)
    (data : JobDict) (jq : JobQueue) : JobQueue :=
  jq ++ [⟨interval, first, chatId, name, data⟩]

/-! ## The replied-to Telegram message and the `/set` arguments -/

/-- The fields of `update.message.reply_to_message` that `set_timer` reads.
`photo` is a (possibly empty) list of file ids, the other media fields are
optional file ids; Python truthiness is used on each. -/
structure Message where
  text : Option String
  photo : List String
  video : Option String
  document : Option String
  audio : Option String
  sticker : Option String
  caption : Option String
deriving DecidableEq, Repr

/-- Python truthiness of an optional string: `None` and `""` are falsy. -/
def strTruthy : Option String → Bool
  | none => false
  | some s => !s.isEmpty

/-- An optional string as the Python value stored in the dict
(`None` or the string itself). -/
def optPy : Option String → PyVal
  | none => .pyNone
  | some s => .pyStr s

/-- One entry of `context.args`: `int(...)` either parses it or raises
`ValueError` (non-numeric input). -/
inductive Arg where
  | intArg (n : Int) : Arg
  | nonNumeric : Arg
deriving DecidableEq, Repr

/-- The initial `job_data` dict built by `set_timer` before the
media-specific `update`. -/
def mkBaseJobData (minutes : Int) : JobDict :=
  [("media_type", .pyNone), ("interval_minutes", .pyInt minutes),
   ("text", .pyNone), ("caption", .pyNone), ("file_id", .pyNone)]

/-- The `if replied_message.text: ... elif ...` chain of `set_timer` that
populates `job_data` from the replied-to message; `none` is the
"media type is not supported" rejection. -/
def buildJobData (minutes : Int) (m : Message) : Option JobDict :=
  let base := mkBaseJobData minutes
  if strTruthy m.text then
    some (dictUpdate base [("media_type", .pyStr "text"), ("text", .pyStr (m.text.getD ""))])
  else if !m.photo.isEmpty then
    some (dictUpdate base [("media_type", .pyStr "photo"),
      ("file_id", .pyStr (m.photo.getLastD "")), ("caption", optPy m.caption)])
  else if m.video.isSome then
    some (dictUpdate base [("media_type", .pyStr "video"),
      ("file_id", .pyStr (m.video.getD "")), ("caption", optPy m.caption)])
  else if m.document.isSome then
    some (dictUpdate base [("media_type", .pyStr "document"),
      ("file_id", .pyStr (m.document.getD "")), ("caption", optPy m.caption)])
  else if m.audio.isSome then
    some (dictUpdate base [("media_type", .pyStr "audio"),
      ("file_id", .pyStr (m.audio.getD "")), ("caption", optPy m.caption)])
  else if m.sticker.isSome then
    some (dictUpdate base [("media_type", .pyStr "sticker"),
      ("file_id", .pyStr (m.sticker.getD ""))])
  else none

/-! ## The `/set` handler -/

/-- One observable store/registry action of `set_timer`, in program order. -/
inductive Event where
  | evPut (chatId : Int) (b : Blob) : Event
  | evPutFailed (chatId : Int) : Event
  | evRemoveTimer (name : String) : Event
  | evInstallTimer (name : String) : Event
deriving DecidableEq, Repr

/-- Is this event a change to the timer registry? -/
def Event.isTimer : Event → Bool
  | .evRemoveTimer _ => true
  | .evInstallTimer _ => true
  | _ => false

/-- The reply `set_timer` sends back (identifying the return path taken). -/
inductive SetOutcome where
  | errNoReply : SetOutcome
  | errUsage : SetOutcome
  | errBadInterval : SetOutcome
  | errUnsupportedMedia : SetOutcome
  | storeRaised : SetOutcome
  | ok (minutes : Int) : SetOutcome
deriving DecidableEq, Repr

/-- The full result of a `set_timer` call. -/
structure SetResult where
  outcome : SetOutcome
  store : Store
  jobs : JobQueue
  trace : List Event
deriving DecidableEq, Repr

/-- `set_timer(update, context)`.  `putFails` models `save_job_to_db`
raising (a sqlite/disk error, not caught by the handler's
`except (IndexError, ValueError)` clause, so the handler aborts there);
the store write is atomic, so on failure the table is unchanged. -/
def setTimer (chatId : Int) (replied : Option Message) (args : List Arg)
    (putFails : Bool) (store : Store) (jobs : JobQueue) : SetResult :=
  match replied with
  | none => ⟨.errNoReply, store, jobs, []⟩
  | some msg =>
    match args with
    | [] => ⟨.errUsage, store, jobs, []⟩
    | .nonNumeric :: _ => ⟨.errUsage, store, jobs, []⟩
    | .intArg minutes :: _ =>
      if 1 ≤ minutes ∧ minutes ≤ 60 then
        match buildJobData minutes msg with
        | none => ⟨.errUnsupportedMedia, store, jobs, []⟩
        | some jd =>
          if putFails then ⟨.storeRaised, store, jobs, [.evPutFailed chatId]⟩
          else
            let blob := serializeDict jd
            let store' := dbPut chatId blob store
            let intervalSeconds := minutes * 60
            let removed := removeJobIfExists (toString chatId) jobs
            let jobs' := runRepeating intervalSeconds intervalSeconds chatId
              (toString chatId) jd removed.2
            ⟨.ok minutes, store', jobs',
              [Event.evPut chatId blob]
                ++ (if removed.1 then [Event.evRemoveTimer (toString chatId)] else [])
                ++ [Event.evInstallTimer (toString chatId)]⟩
      else ⟨.errBadInterval, store, jobs, []⟩

/-! ## The `/stop` handler -/

/-- The reply `stop_timer` always sends. -/
def stopSuccessMessage : String :=
  "Timer successfully stopped! The schedule has been cleared."

/-- The result of a `stop_timer` call.  `removedTimer` is the value
returned by `remove_job_if_exists` (which the handler discards). -/
structure StopResult where
  removedTimer : Bool
  store : Store
  jobs : JobQueue
  reply : String
deriving DecidableEq, Repr

/-- `stop_timer(update, context)`: remove the in-memory job, delete the
row, and reply with the fixed success message. -/
def stopTimer (chatId : Int) (store : Store) (jobs : JobQueue) : StopResult :=
  let removed := removeJobIfExists (toString chatId) jobs
  ⟨removed.1, deleteJobFromDb chatId store, removed.2, stopSuccessMessage⟩

/-! ## Startup reconciliation (the job-loading loop in `main`) -/

/-- `job_data.get('interval_minutes', 1) * 60`: Python multiplication of
the fetched value by the int `60`; a non-int value would raise `TypeError`
(`none`). -/
def pyTimesSixty : PyVal → Option Int
  | .pyInt n => some (n * 60)
  | _ => none

/-- One iteration of the `for chat_id, job_data in jobs_to_load` loop:
compute the interval (defaulting a missing `interval_minutes` to 1 minute)
and install a repeating job whose first fire is 10 seconds after restart. -/
def reconcileStep (jq : JobQueue) (e : Int × JobDict) : Option JobQueue :=
  (pyTimesSixty (dictGetD e.2 "interval_minutes" (.pyInt 1))).map
    (fun isecs => runRepeating isecs 10 e.1 (toString e.1) e.2 jq)

/-- Run the reconciliation loop over the loaded records in order. -/
def installJobs : List (Int × JobDict) → JobQueue → Option JobQueue
  | [], jq => some jq
  | e :: rest, jq =>
    match reconcileStep jq e with
    | none => none
    | some jq' => installJobs rest jq'

/-- The startup reconciliation in `main`: load every stored record, then
install one repeating job per record into the (initially empty) job queue.
`none` models the load or the loop raising, which aborts `main` before any
user traffic is handled. -/
def mainReconcile (store : Store) : Option JobQueue :=
  match loadAllJobsFromDb store with
  | none => none
  | some l => installJobs l []

/-! ## The firing handler `send_recurring_message` -/

/-- The Telegram send call made for one due tick. -/
inductive SendCall where
  | sMessage (chatId : Int) (text : PyVal) : SendCall
  | sPhoto (chatId : Int) (fileId : PyVal) (caption : PyVal) : SendCall
  | sVideo (chatId : Int) (fileId : PyVal) (caption : PyVal) : SendCall
  | sDocument (chatId : Int) (fileId : PyVal) (caption : PyVal) : SendCall
  | sAudio (chatId : Int) (fileId : PyVal) (caption : PyVal) : SendCall
  | sSticker (chatId : Int) (fileId : PyVal) : SendCall
deriving DecidableEq, Repr

/-- What happened inside the `try` block of `send_recurring_message`:
no branch matched (no send attempted), a send completed, or an exception
was raised inside the block (a failing delivery, or a `KeyError` on a
missing required dict key). -/
inductive TrySendOutcome where
  | noSend : TrySendOutcome
  | sent (c : SendCall) : TrySendOutcome
  | raisedInTry : TrySendOutcome
deriving DecidableEq, Repr

/-- The dispatch on `media_type` inside the `try` block.  `deliverFails`
models the awaited Telegram send call raising. -/
def trySend (chatId : Int) (jd : JobDict) (deliverFails : Bool) : TrySendOutcome :=
  match dictGet jd "media_type" with
  | some (.pyStr "text") =>
    match dictGet jd "text" with
    | some t => if deliverFails then .raisedInTry else .sent (.sMessage chatId t)
    | none => .raisedInTry
  | some (.pyStr "photo") =>
    match dictGet jd "file_id" with
    | some f =>
      if deliverFails then .raisedInTry
      else .sent (.sPhoto chatId f ((dictGet jd "caption").getD .pyNone))
    | none => .raisedInTry
  | some (.pyStr "video") =>
    match dictGet jd "file_id" with
    | some f =>
      if deliverFails then .raisedInTry
      else .sent (.sVideo chatId f ((dictGet jd "caption").getD .pyNone))
    | none => .raisedInTry
  | some (.pyStr "document") =>
    match dictGet jd "file_id" with
    | some f =>
      if deliverFails then .raisedInTry
      else .sent (.sDocument chatId f ((dictGet jd "caption").getD .pyNone))
    | none => .raisedInTry
  | some (.pyStr "audio") =>
    match dictGet jd "file_id" with
    | some f =>
      if deliverFails then .raisedInTry
      else .sent (.sAudio chatId f ((dictGet jd "caption").getD .pyNone))
    | none => .raisedInTry
  | some (.pyStr "sticker") =>
    match dictGet jd "file_id" with
    | some f =>
      if deliverFails then .raisedInTry
      else .sent (.sSticker chatId f)
    | none => .raisedInTry
  | _ => .noSend

/-- The observable result of one due tick of `send_recurring_message`.
The handler never touches the job queue or the database, so the state it
returns is the state it was given; the `except` clause turns any exception
raised in the `try` block into a log line. -/
structure TickResult where
  store : Store
  jobs : JobQueue
  loggedError : Bool
  propagated : Bool
deriving DecidableEq, Repr

/-- `send_recurring_message(context)` for the job of `chatId` carrying
`jd`, over system state `(store, jobs)`. -/
def sendRecurringMessage (chatId : Int) (jd : JobDict) (deliverFails : Bool)
    (store : Store) (jobs : JobQueue) : TickResult :=
  match trySend chatId jd deliverFails with
  | .raisedInTry => ⟨store, jobs, true, false⟩
  | _ => ⟨store, jobs, false, false⟩

/-- `n` consecutive due ticks for the same job. -/
def tickN (chatId : Int) (jd : JobDict) (deliverFails : Bool) :
    Nat → Store × JobQueue → Store × JobQueue
  | 0, st => st
  | n + 1, st =>
    let r := sendRecurringMessage chatId jd deliverFails st.1 st.2
    tickN chatId jd deliverFails n (r.store, r.jobs)

/-- Scans a trace and checks that every timer change (removal or install)
is preceded by a successful store persist; the accumulator records whether
a `put` has been seen so far. -/
def putBeforeTimer : List Event → Bool → Bool
  | [], _ => true
  | e :: rest, seenPut =>
    match e with
    | .evPut _ _ => putBeforeTimer rest true
    | .evPutFailed _ => putBeforeTimer rest seenPut
    | .evRemoveTimer _ => seenPut && putBeforeTimer rest seenPut
    | .evInstallTimer _ => seenPut && putBeforeTimer rest seenPut

/-! ## Concrete fixtures used to evaluate the model -/

/-- A replied-to message that is plain text. -/
def wText : Message := ⟨some "hello", [], none, none, none, none, none⟩

/-- The `job_data` dict `set_timer` builds from `wText` with 5 minutes. -/
def wTextDict : JobDict :=
  [("media_type", .pyStr "text"), ("interval_minutes", .pyInt 5),
   ("text", .pyStr "hello"), ("caption", .pyNone), ("file_id", .pyNone)]

/-- A replied-to message that is a sticker (the caption-less variant). -/
def wSticker : Message := ⟨none, [], none, none, none, some "stk", none⟩

/-- The `job_data` dict `set_timer` builds from `wSticker` with 5 minutes. -/
def wStickerDict : JobDict :=
  [("media_type", .pyStr "sticker"), ("interval_minutes", .pyInt 5),
   ("text", .pyNone), ("caption", .pyNone), ("file_id", .pyStr "stk")]

/-- A replied-to message carrying several content kinds at once
(a photo, a sticker and a caption, no text). -/
def wMulti : Message := ⟨none, ["p"], none, none, none, some "stk", some "cap"⟩

/-- A stored record that lacks the `interval_minutes` key. -/
def wNoInterval : JobDict := [("media_type", .pyStr "text"), ("text", .pyStr "hi")]

/-- A blob no parse can reconstruct: a corrupt pickle. -/
def wCorruptBlob : Blob := [Token.tStr]

/-! ## Serialization round-trip lemmas -/

theorem takeChars_append (cs : List Char) (r : Blob) :
    takeChars cs.length (cs.map Token.tChr ++ r) = some (cs, r) := by
  induction cs with
  | nil => rfl
  | cons c cs ih => simp [takeChars, ih]

theorem parseStr_append (s : String) (r : Blob) :
    parseStr (serializeStr s ++ r) = some (s, r) := by
  show (takeChars s.length (s.data.map Token.tChr ++ r)).map
      (fun p => (String.mk p.1, p.2)) = some (s, r)
  have hlen : s.length = s.data.length := rfl
  rw [hlen, takeChars_append]
  rfl

theorem parseVal_append (v : PyVal) (r : Blob) :
    parseVal (serializeVal v ++ r) = some (v, r) := by
  cases v with
  | pyNone => rfl
  | pyInt i => rfl
  | pyStr s => simp [serializeVal, parseVal, parseStr_append]

theorem parseEntries_append (es : List (String × PyVal)) (r : Blob) :
    parseEntries es.length (serializeEntries es ++ r) = some (es, r) := by
  induction es generalizing r with
  | nil => rfl
  | cons e rest ih =>
    obtain ⟨k, v⟩ := e
    simp [serializeEntries, parseEntries, parseStr_append, parseVal_append, ih]

/-- The pickle model is lossless: parsing a serialized dict returns it exactly. -/
theorem parseBlob_serializeDict (d : JobDict) : parseBlob (serializeDict d) = some d := by
  have h := parseEntries_append d []
  simp at h
  simp [serializeDict, parseBlob, h]

/-! ## Store and registry lemmas -/

theorem filter_pred_filter_not {α : Type} (p : α → Prop) [DecidablePred p] (l : List α) :
    (l.filter (fun x => ¬ p x)).filter (fun x => p x) = [] := by
  induction l with
  | nil => rfl
  | cons a t ih => by_cases h : p a <;> simp [List.filter_cons, h, ih]

theorem removeJobIfExists_filter (n : String) (jq : JobQueue) :
    ((removeJobIfExists n jq).2).filter (fun j => j.name = n) = [] := by
  unfold removeJobIfExists
  by_cases h : (getJobsByName n jq).isEmpty
  · simp only [h, if_pos]
    have h2 : jq.filter (fun j => j.name = n) = [] := by
      unfold getJobsByName at h
      simpa using h
    exact h2
  · simp only [h, if_neg, Bool.false_eq_true, not_false_iff]
    exact filter_pred_filter_not (fun j => j.name = n) jq

theorem dbPut_filter (k : Int) (b : Blob) (s : Store) :
    (dbPut k b s).filter (fun e => e.1 = k) = [(k, b)] := by
  unfold dbPut
  rw [List.filter_append]
  have h1 : (s.filter (fun e => e.1 ≠ k)).filter (fun e => e.1 = k) = [] :=
    filter_pred_filter_not (fun e => e.1 = k) s
  rw [h1]
  simp

theorem dbGet_dbPut_self (k : Int) (b : Blob) (s : Store) :
    dbGet k (dbPut k b s) = some b := by
  unfold dbGet dbPut
  rw [List.find?_append]
  have h1 : (s.filter (fun e => e.1 ≠ k)).find? (fun e => e.1 = k) = none := by
    rw [List.find?_eq_none]
    intro x hx
    have := List.of_mem_filter hx
    simpa using this
  simp [h1]

theorem setTimer_ok (chat : Int) (msg : Message) (m : Int) (jd : JobDict)
    (s : Store) (j : JobQueue) (h1 : 1 ≤ m) (h2 : m ≤ 60)
    (h3 : buildJobData m msg = some jd) :
    setTimer chat (some msg) [.intArg m] false s j =
      ⟨.ok m, dbPut chat (serializeDict jd) s,
       runRepeating (m * 60) (m * 60) chat (toString chat) jd
         (removeJobIfExists (toString chat) j).2,
       [Event.evPut chat (serializeDict jd)]
         ++ (if (removeJobIfExists (toString chat) j).1 then
              [Event.evRemoveTimer (toString chat)] else [])
         ++ [Event.evInstallTimer (toString chat)]⟩ := by
  simp [setTimer, h3, h1, h2]

theorem dbDelete_absent (k : Int) (s : Store) (h : dbGet k s = none) :
    dbDelete k s = s := by
  unfold dbDelete
  apply List.filter_eq_self.mpr
  intro e he
  unfold dbGet at h
  have hf : s.find? (fun e => e.1 = k) = none := by
    cases hf : s.find? (fun e => e.1 = k) with
    | none => rfl
    | some x => rw [hf] at h; simp at h
  have := List.find?_eq_none.mp hf e he
  simpa using this

theorem loadAll_corrupt (store : Store) (e : Int × Blob) (he : e ∈ store)
    (hc : parseBlob e.2 = none) : loadAllJobsFromDb store = none := by
  induction store with
  | nil => cases he
  | cons a rest ih =>
    cases he with
    | head => simp [loadAllJobsFromDb, hc]
    | tail _ hmem =>
      unfold loadAllJobsFromDb
      cases hp : parseBlob a.2 with
      | none => rfl
      | some d => simp [ih hmem]

theorem installJobs_first (l : List (Int × JobDict)) (jq jq' : JobQueue)
    (hacc : ∀ jb ∈ jq, jb.first = 10) (h : installJobs l jq = some jq') :
    ∀ jb ∈ jq', jb.first = 10 := by
  induction l generalizing jq with
  | nil =>
    unfold installJobs at h
    cases h
    exact hacc
  | cons e rest ih =>
    unfold installJobs at h
    cases hr : reconcileStep jq e with
    | none => rw [hr] at h; cases h
    | some jq1 =>
      rw [hr] at h
      apply ih jq1 _ h
      intro jb hjb
      unfold reconcileStep at hr
      cases hp : pyTimesSixty (dictGetD e.2 "interval_minutes" (.pyInt 1)) with
      | none => rw [hp] at hr; cases hr
      | some isecs =>
        rw [hp] at hr
        simp [runRepeating] at hr
        rw [← hr] at hjb
        rcases List.mem_append.mp hjb with hmem | hmem
        · exact hacc jb hmem
        · simp at hmem; rw [hmem]

theorem sendRecurringMessage_state (chat : Int) (jd : JobDict) (d : Bool)
    (store : Store) (jobs : JobQueue) :
    (sendRecurringMessage chat jd d store jobs).store = store ∧
    (sendRecurringMessage chat jd d store jobs).jobs = jobs ∧
    (sendRecurringMessage chat jd d store jobs).propagated = false := by
  unfold sendRecurringMessage
  split <;> exact ⟨rfl, rfl, rfl⟩

theorem trySend_fail_not_sent (chat : Int) (jd : JobDict) (c : SendCall) :
    trySend chat jd true ≠ .sent c := by
  unfold trySend
  split <;> first | (split <;> simp) | simp

/-! ## Claim theorems -/

/-- C1: for every set operation that passes validation, the record is
persisted to the store before any timer change; if the persist fails, the
operation aborts with no timer change and the prior store and registry
left intact. -/
theorem set_persists_before_timer (chatId : Int) (replied : Option Message)
    (args : List Arg) (putFails : Bool) (store : Store) (jobs : JobQueue) :
    (putFails = true →
      (setTimer chatId replied args putFails store jobs).store = store ∧
      (setTimer chatId replied args putFails store jobs).jobs = jobs ∧
      ∀ e ∈ (setTimer chatId replied args putFails store jobs).trace,
        Event.isTimer e = false) ∧
    putBeforeTimer (setTimer chatId replied args putFails store jobs).trace
      false = true := by
  cases replied with
  | none => simp [setTimer, putBeforeTimer]
  | some msg =>
    cases args with
    | nil => simp [setTimer, putBeforeTimer]
    | cons a rest =>
      cases a with
      | nonNumeric => simp [setTimer, putBeforeTimer]
      | intArg m =>
        by_cases hv : 1 ≤ m ∧ m ≤ 60
        · cases hjd : buildJobData m msg with
          | none => simp [setTimer, hv, hjd, putBeforeTimer]
          | some jd =>
            cases putFails with
            | true => simp [setTimer, hv, hjd, putBeforeTimer, Event.isTimer]
            | false =>
              cases hrm : (removeJobIfExists (toString chatId) jobs).1 with
              | true => simp [setTimer, hv, hjd, hrm, putBeforeTimer]
              | false => simp [setTimer, hv, hjd, hrm, putBeforeTimer]
        · simp [setTimer, hv, putBeforeTimer]

/-- C1 witness: a failing persist on a concrete valid set leaves the empty
store and registry untouched and performs no timer change. -/
theorem set_persists_before_timer_witness :
    (setTimer 7 (some wText) [.intArg 5] true [] []).store = [] ∧
    (setTimer 7 (some wText) [.intArg 5] true [] []).jobs = [] ∧
    ∀ e ∈ (setTimer 7 (some wText) [.intArg 5] true [] []).trace,
      Event.isTimer e = false :=
  (set_persists_before_timer 7 (some wText) [.intArg 5] true [] []).1 rfl

/-- C2: performing set twice for the same chat key leaves exactly one live
timer in the registry and exactly one record in the store, both carrying
the second set's data and interval (replacement, never stacking). -/
theorem set_twice_replaces (chat : Int) (msg1 msg2 : Message) (a1 : List Arg)
    (m2 : Int) (jd2 : JobDict) (store : Store) (jobs : JobQueue)
    (h1 : 1 ≤ m2) (h2 : m2 ≤ 60) (h3 : buildJobData m2 msg2 = some jd2) :
    ((setTimer chat (some msg2) [.intArg m2] false
        (setTimer chat (some msg1) a1 false store jobs).store
        (setTimer chat (some msg1) a1 false store jobs).jobs).jobs.filter
        (fun jb => jb.name = toString chat)
      = [⟨m2 * 60, m2 * 60, chat, toString chat, jd2⟩]) ∧
    ((setTimer chat (some msg2) [.intArg m2] false
        (setTimer chat (some msg1) a1 false store jobs).store
        (setTimer chat (some msg1) a1 false store jobs).jobs).store.filter
        (fun e => e.1 = chat)
      = [(chat, serializeDict jd2)]) := by
  rw [setTimer_ok chat msg2 m2 jd2 _ _ h1 h2 h3]
  constructor
  · show (runRepeating (m2 * 60) (m2 * 60) chat (toString chat) jd2 _).filter _ = _
    unfold runRepeating
    rw [List.filter_append, removeJobIfExists_filter]
    simp
  · exact dbPut_filter chat (serializeDict jd2) _

/-- C2 witness: setting a text schedule at 5 minutes and then a sticker
schedule at 9 minutes for chat 7 leaves exactly the sticker timer and the
sticker record. -/
theorem set_twice_replaces_witness :
    ((setTimer 7 (some wSticker) [.intArg 9] false
        (setTimer 7 (some wText) [.intArg 5] false [] []).store
        (setTimer 7 (some wText) [.intArg 5] false [] []).jobs).jobs.filter
        (fun jb => jb.name = toString (7 : Int))
      = [⟨9 * 60, 9 * 60, 7, toString (7 : Int),
          [("media_type", .pyStr "sticker"), ("interval_minutes", .pyInt 9),
           ("text", .pyNone), ("caption", .pyNone), ("file_id", .pyStr "stk")]⟩]) ∧
    ((setTimer 7 (some wSticker) [.intArg 9] false
        (setTimer 7 (some wText) [.intArg 5] false [] []).store
        (setTimer 7 (some wText) [.intArg 5] false [] []).jobs).store.filter
        (fun e => e.1 = 7)
      = [(7, serializeDict
          [("media_type", .pyStr "sticker"), ("interval_minutes", .pyInt 9),
           ("text", .pyNone), ("caption", .pyNone), ("file_id", .pyStr "stk")])]) :=
  set_twice_replaces 7 wText wSticker [.intArg 5] 9 _ [] []
    (by decide) (by decide) rfl

/-- C3 counterexample: with a well-formed record for chat 1 (which alone
would be reconciled into a timer) and a corrupt record for chat 2, the
whole reconciliation raises and installs no timer at all — the corrupt
record is not skipped and chat 1 does not resume. -/
theorem reconcile_corrupt_aborts_all :
    parseBlob (serializeDict wTextDict) = some wTextDict ∧
    parseBlob wCorruptBlob = none ∧
    mainReconcile [(1, serializeDict wTextDict)] =
      some [⟨5 * 60, 10, 1, "1", wTextDict⟩] ∧
    mainReconcile [(1, serializeDict wTextDict), (2, wCorruptBlob)] = none := by
  refine ⟨parseBlob_serializeDict wTextDict, rfl, ?_, ?_⟩ <;> rfl

/-- C3 amended: reconciliation does not tolerate a malformed stored
record — if any record fails to deserialize, the whole reconciliation
aborts and no timers are installed, not even for well-formed records. -/
theorem reconcile_aborts_on_any_corrupt (store : Store) (e : Int × Blob)
    (he : e ∈ store) (hc : parseBlob e.2 = none) :
    mainReconcile store = none := by
  unfold mainReconcile
  rw [loadAll_corrupt store e he hc]

/-- C3 amended witness: a concrete store with one good and one corrupt
record reconciles to nothing. -/
theorem reconcile_aborts_on_any_corrupt_witness :
    mainReconcile [(1, serializeDict wTextDict), (2, wCorruptBlob)] = none :=
  reconcile_aborts_on_any_corrupt _ (2, wCorruptBlob) (by simp) rfl

/-- C4 counterexample: stopping chat 1, which has no timer and no record,
produces exactly the same success reply ("Timer successfully stopped!
The schedule has been cleared.") as stopping a chat with an active
schedule — the handler reports an active schedule was stopped even though
`remove_job_if_exists` returned false and no record existed. -/
theorem stop_reports_success_without_schedule :
    (stopTimer 1 [] []).reply =
      (stopTimer 7 [(7, serializeDict wTextDict)]
        [⟨5 * 60, 5 * 60, 7, "7", wTextDict⟩]).reply ∧
    (stopTimer 1 [] []).removedTimer = false ∧
    dbGet 1 [] = none :=
  ⟨rfl, rfl, rfl⟩

/-- C4 amended: the stop operation always replies with the same fixed
success message, discarding the result of `remove_job_if_exists`; for a
chat with no stored record the (idempotent) delete leaves the store
unchanged. -/
theorem stop_always_reports_success (chat : Int) (store : Store) (jobs : JobQueue) :
    (stopTimer chat store jobs).reply = stopSuccessMessage ∧
    (dbGet chat store = none → (stopTimer chat store jobs).store = store) := by
  constructor
  · rfl
  · intro h
    show deleteJobFromDb chat store = store
    unfold deleteJobFromDb
    exact dbDelete_absent chat store h

/-- C4 amended witness: stopping a chat with no record leaves the empty
store unchanged. -/
theorem stop_always_reports_success_witness :
    (stopTimer 1 [] []).store = [] :=
  (stop_always_reports_success 1 [] []).2 rfl

/-- C5: a timer installed by a fresh valid set has its first fire exactly
one full interval (`minutes * 60` seconds) after installation, never
immediately; every timer installed by restart reconciliation has its first
fire after the fixed 10-second grace period, which is never a whole number
of minutes and in particular differs from every fresh-set delay. -/
theorem fresh_delay_vs_reconcile_grace (chat : Int) (msg : Message) (m : Int)
    (jd : JobDict) (store : Store) (jobs : JobQueue)
    (h1 : 1 ≤ m) (h2 : m ≤ 60) (h3 : buildJobData m msg = some jd) :
    ((setTimer chat (some msg) [.intArg m] false store jobs).jobs.getLast? =
      some ⟨m * 60, m * 60, chat, toString chat, jd⟩) ∧
    m * 60 ≠ 0 ∧
    (∀ st jq, mainReconcile st = some jq → ∀ jb ∈ jq, jb.first = 10) ∧
    (10 : Int) ≠ m * 60 := by
  refine ⟨?_, by omega, ?_, by omega⟩
  · rw [setTimer_ok chat msg m jd store jobs h1 h2 h3]
    show (runRepeating (m * 60) (m * 60) chat (toString chat) jd _).getLast? = _
    unfold runRepeating
    simp
  · intro st jq h jb hjb
    unfold mainReconcile at h
    cases hl : loadAllJobsFromDb st with
    | none => rw [hl] at h; cases h
    | some l =>
      rw [hl] at h
      exact installJobs_first l [] jq (by simp) h jb hjb

/-- C5 witness: the timer from a fresh 5-minute set of a text message
fires first after exactly 300 seconds, with interval 300 seconds. -/
theorem fresh_delay_vs_reconcile_grace_witness :
    (setTimer 7 (some wText) [.intArg 5] false [] []).jobs.getLast? =
      some ⟨5 * 60, 5 * 60, 7, toString (7 : Int), wTextDict⟩ :=
  (fresh_delay_vs_reconcile_grace 7 wText 5 wTextDict [] []
    (by decide) (by decide) rfl).1

/-- C6: a failing delivery on a due tick is caught inside the firing
handler (never propagates), is logged, and leaves the store and the job
queue — and hence the timer and its cadence — unchanged after any number
of consecutive failed ticks. -/
theorem delivery_failure_is_local (chat : Int) (jd : JobDict) (n : Nat)
    (store : Store) (jobs : JobQueue) :
    tickN chat jd true n (store, jobs) = (store, jobs) ∧
    (sendRecurringMessage chat jd true store jobs).propagated = false ∧
    (sendRecurringMessage chat jd true store jobs).store = store ∧
    (sendRecurringMessage chat jd true store jobs).jobs = jobs ∧
    (trySend chat jd true ≠ .noSend →
      (sendRecurringMessage chat jd true store jobs).loggedError = true) := by
  obtain ⟨hs, hj, hp⟩ := sendRecurringMessage_state chat jd true store jobs
  refine ⟨?_, hp, hs, hj, ?_⟩
  · induction n with
    | zero => rfl
    | succ k ih =>
      show tickN chat jd true k
        ((sendRecurringMessage chat jd true store jobs).store,
         (sendRecurringMessage chat jd true store jobs).jobs) = (store, jobs)
      rw [hs, hj]
      exact ih
  · intro hns
    unfold sendRecurringMessage
    cases htr : trySend chat jd true with
    | noSend => exact absurd htr hns
    | sent c => exact absurd htr (trySend_fail_not_sent chat jd c)
    | raisedInTry => rfl

/-- C6 witness: three consecutive failed deliveries of a concrete text
job leave a one-record store and its one timer untouched, and the failure
is logged. -/
theorem delivery_failure_is_local_witness :
    tickN 7 wTextDict true 3
      ([(7, serializeDict wTextDict)], [⟨5 * 60, 5 * 60, 7, "7", wTextDict⟩]) =
      ([(7, serializeDict wTextDict)], [⟨5 * 60, 5 * 60, 7, "7", wTextDict⟩]) ∧
    (sendRecurringMessage 7 wTextDict true [(7, serializeDict wTextDict)]
      [⟨5 * 60, 5 * 60, 7, "7", wTextDict⟩]).loggedError = true := by
  have h := delivery_failure_is_local 7 wTextDict 3
    [(7, serializeDict wTextDict)] [⟨5 * 60, 5 * 60, 7, "7", wTextDict⟩]
  exact ⟨h.1, h.2.2.2.2 (by decide)⟩

/-- C7: interval validation on set accepts exactly the integers 1 through
60 — any integer outside that range is rejected with the bounds error and
no store or registry change, a non-numeric argument is rejected with the
usage error and no store or registry change, and any in-range integer on a
supported payload is accepted. -/
theorem interval_validation_bounds (chat : Int) (msg : Message) (store : Store)
    (jobs : JobQueue) :
    (∀ m : Int, 1 ≤ m → m ≤ 60 → ∀ jd, buildJobData m msg = some jd →
      (setTimer chat (some msg) [.intArg m] false store jobs).outcome = .ok m) ∧
    (∀ m : Int, ¬ (1 ≤ m ∧ m ≤ 60) →
      setTimer chat (some msg) [.intArg m] false store jobs =
        ⟨.errBadInterval, store, jobs, []⟩) ∧
    (setTimer chat (some msg) [.nonNumeric] false store jobs =
      ⟨.errUsage, store, jobs, []⟩) := by
  refine ⟨?_, ?_, rfl⟩
  · intro m hm1 hm2 jd hjd
    rw [setTimer_ok chat msg m jd store jobs hm1 hm2 hjd]
  · intro m hm
    simp [setTimer, hm]

/-- C7 witness: 1 and 60 are accepted; 0, 61 and a non-numeric argument
are rejected leaving the empty store and registry untouched. -/
theorem interval_validation_bounds_witness :
    (setTimer 7 (some wText) [.intArg 1] false [] []).outcome = .ok 1 ∧
    (setTimer 7 (some wText) [.intArg 60] false [] []).outcome = .ok 60 ∧
    setTimer 7 (some wText) [.intArg 0] false [] [] = ⟨.errBadInterval, [], [], []⟩ ∧
    setTimer 7 (some wText) [.intArg 61] false [] [] = ⟨.errBadInterval, [], [], []⟩ ∧
    setTimer 7 (some wText) [.nonNumeric] false [] [] = ⟨.errUsage, [], [], []⟩ := by
  have h := interval_validation_bounds 7 wText [] []
  exact ⟨h.1 1 (by decide) (by decide) _ rfl, h.1 60 (by decide) (by decide) _ rfl,
    h.2.1 0 (by decide), h.2.1 61 (by decide), h.2.2⟩

/-- C8: any job record built by set from a replied-to message — each of
the six payload variants, with or without caption — survives the save /
load round trip through the store exactly (the hypothesis scopes the
statement to such records; the round trip in fact holds for every dict). -/
theorem payload_roundtrip (chat : Int) (store : Store) (m : Int) (msg : Message)
    (jd : JobDict) (_hvariant : buildJobData m msg = some jd) :
    loadJobFromDb chat (saveJobToDb chat jd store) = some (some jd) := by
  unfold loadJobFromDb saveJobToDb
  rw [dbGet_dbPut_self]
  show Option.map some (parseBlob (serializeDict jd)) = some (some jd)
  rw [parseBlob_serializeDict]
  rfl

/-- C8 witness: the caption-less sticker record round-trips exactly. -/
theorem payload_roundtrip_witness :
    loadJobFromDb 7 (saveJobToDb 7 wStickerDict []) = some (some wStickerDict) :=
  payload_roundtrip 7 [] 5 wSticker wStickerDict rfl

/-- C9: during reconciliation a stored record with no `interval_minutes`
key is not skipped or rejected — it is installed as a timer with the
default interval of 1 minute (60 seconds), first firing after the
10-second grace period. -/
theorem reconcile_default_interval (chat : Int) (jd : JobDict)
    (h : dictGet jd "interval_minutes" = none) :
    mainReconcile [(chat, serializeDict jd)] =
      some [⟨60, 10, chat, toString chat, jd⟩] := by
  have hl : loadAllJobsFromDb [(chat, serializeDict jd)] = some [(chat, jd)] := by
    unfold loadAllJobsFromDb
    rw [parseBlob_serializeDict]
    rfl
  have hd : dictGetD jd "interval_minutes" (.pyInt 1) = .pyInt 1 := by
    unfold dictGetD
    rw [h]
    rfl
  unfold mainReconcile
  rw [hl]
  show installJobs [(chat, jd)] [] = _
  unfold installJobs reconcileStep
  rw [hd]
  simp [pyTimesSixty, runRepeating, installJobs]

/-- C9 witness: a concrete stored record without `interval_minutes`
reconciles to a 60-second timer. -/
theorem reconcile_default_interval_witness :
    mainReconcile [(3, serializeDict wNoInterval)] =
      some [⟨60, 10, 3, toString (3 : Int), wNoInterval⟩] :=
  reconcile_default_interval 3 wNoInterval rfl

/-- C10: when the replied-to message carries several content kinds, set
picks exactly one payload variant by the fixed precedence text, photo,
video, document, audio, sticker (each clause applies regardless of the
kinds below it); a message carrying none of the six kinds is rejected as
unsupported with no store write and no timer change. -/
theorem payload_precedence (m : Int) (msg : Message) :
    (strTruthy msg.text = true →
      buildJobData m msg = some [("media_type", .pyStr "text"),
        ("interval_minutes", .pyInt m), ("text", .pyStr (msg.text.getD "")),
        ("caption", .pyNone), ("file_id", .pyNone)]) ∧
    (strTruthy msg.text = false → msg.photo.isEmpty = false →
      buildJobData m msg = some [("media_type", .pyStr "photo"),
        ("interval_minutes", .pyInt m), ("text", .pyNone),
        ("caption", optPy msg.caption), ("file_id", .pyStr (msg.photo.getLastD ""))]) ∧
    (strTruthy msg.text = false → msg.photo.isEmpty = true →
      msg.video.isSome = true →
      buildJobData m msg = some [("media_type", .pyStr "video"),
        ("interval_minutes", .pyInt m), ("text", .pyNone),
        ("caption", optPy msg.caption), ("file_id", .pyStr (msg.video.getD ""))]) ∧
    (strTruthy msg.text = false → msg.photo.isEmpty = true →
      msg.video = none → msg.document.isSome = true →
      buildJobData m msg = some [("media_type", .pyStr "document"),
        ("interval_minutes", .pyInt m), ("text", .pyNone),
        ("caption", optPy msg.caption), ("file_id", .pyStr (msg.document.getD ""))]) ∧
    (strTruthy msg.text = false → msg.photo.isEmpty = true →
      msg.video = none → msg.document = none → msg.audio.isSome = true →
      buildJobData m msg = some [("media_type", .pyStr "audio"),
        ("interval_minutes", .pyInt m), ("text", .pyNone),
        ("caption", optPy msg.caption), ("file_id", .pyStr (msg.audio.getD ""))]) ∧
    (strTruthy msg.text = false → msg.photo.isEmpty = true →
      msg.video = none → msg.document = none → msg.audio = none →
      msg.sticker.isSome = true →
      buildJobData m msg = some [("media_type", .pyStr "sticker"),
        ("interval_minutes", .pyInt m), ("text", .pyNone),
        ("caption", .pyNone), ("file_id", .pyStr (msg.sticker.getD ""))]) ∧
    (strTruthy msg.text = false → msg.photo.isEmpty = true →
      msg.video = none → msg.document = none → msg.audio = none →
      msg.sticker = none →
      buildJobData m msg = none ∧
      ∀ chat store jobs, 1 ≤ m → m ≤ 60 →
        setTimer chat (some msg) [.intArg m] false store jobs =
          ⟨.errUnsupportedMedia, store, jobs, []⟩) := by
  refine ⟨?_, ?_, ?_, ?_, ?_, ?_, ?_⟩
  · intro h1
    simp [buildJobData, h1, dictUpdate, dictSet, mkBaseJobData]
  · intro h1 h2
    simp [buildJobData, h1, h2, dictUpdate, dictSet, mkBaseJobData]
  · intro h1 h2 h3
    simp [buildJobData, h1, h2, h3, dictUpdate, dictSet, mkBaseJobData]
  · intro h1 h2 h3 h4
    simp [buildJobData, h1, h2, h3, h4, dictUpdate, dictSet, mkBaseJobData]
  · intro h1 h2 h3 h4 h5
    simp [buildJobData, h1, h2, h3, h4, h5, dictUpdate, dictSet, mkBaseJobData]
  · intro h1 h2 h3 h4 h5 h6
    simp [buildJobData, h1, h2, h3, h4, h5, h6, dictUpdate, dictSet, mkBaseJobData]
  · intro h1 h2 h3 h4 h5 h6
    have hb : buildJobData m msg = none := by
      simp [buildJobData, h1, h2, h3, h4, h5, h6]
    refine ⟨hb, ?_⟩
    intro chat store jobs hm1 hm2
    simp [setTimer, hb, hm1, hm2]

/-- C10 witness: a message carrying a photo, a sticker and a caption is
stored as the photo variant. -/
theorem payload_precedence_witness :
    buildJobData 5 wMulti = some [("media_type", .pyStr "photo"),
      ("interval_minutes", .pyInt 5), ("text", .pyNone),
      ("caption", .pyStr "cap"), ("file_id", .pyStr "p")] :=
  (payload_precedence 5 wMulti).2.1 rfl rfl
